import Mathlib

/-!
Verification development for the PhotosSorter concurrent file-organizing
pipeline.  The definitions below are shallow embeddings of the Python
sources:

* `src/src/utils/statistics.py`  — `ProcessingStats`, `StatisticsCollector`
* `src/src/async_file_organizer.py` — discovery, task generation, duplicate
  handling, the worker loop, the retry executor and the batch generator
* `src/src/file_organizer.py` — the synchronous duplicate resolver

Machine integers are modelled as `Int`/`Nat` (Python integers are unbounded),
filesystem existence checks as boolean-valued functions on names, and the
cancellation token as the boolean value observed at each loop iteration.
-/

namespace PhotosSorter

/-! ## Statistics (src/src/utils/statistics.py) -/

/-- Embedding of the dataclass `ProcessingStats` (statistics.py lines 16-39).
Counter fields are Python integers; `start_time`/`end_time` hold an optional
timestamp (a `datetime` in the source, abstracted to an integer clock). -/
structure ProcessingStats where
  processed : Int
  moved : Int
  copied : Int
  skipped : Int
  errors : Int
  no_date : Int
  videos_processed : Int
  thumbnails_processed : Int
  mpg_merged : Int
  thm_deleted : Int
  mpg_deleted : Int
  backups_created : Int
  cache_hits : Int
  cache_misses : Int
  prev_thm_deleted : Int
  start_time : Option Int
  end_time : Option Int
  deriving Repr, DecidableEq

/-- Fresh `ProcessingStats()`: every counter zero; `__post_init__` sets
`start_time` to the current time (abstracted as `some 0`). -/
def initStats : ProcessingStats :=
  ⟨0, 0, 0, 0, 0, 0, 0, 0, 0, 0, 0, 0, 0, 0, 0, some 0, none⟩

/-- Attribute names of `ProcessingStats` as seen by `hasattr` in
`StatisticsCollector.increment`/`set_counter` (statistics.py lines 77, 92);
in this embedding `hasattr` is membership in the dataclass field list. -/
def statFieldNames : List String :=
  [("processed"), ("moved"), ("copied"), ("skipped"), ("errors"), ("no_date"),
   ("videos_processed"), ("thumbnails_processed"), ("mpg_merged"),
   ("thm_deleted"), ("mpg_deleted"), ("backups_created"), ("cache_hits"),
   ("cache_misses"), ("prev_thm_deleted"), ("start_time"), ("end_time")]

/-- Known class-level attributes of `ProcessingStats` that make
`hasattr(self.stats, name)` true although `name` is not a dataclass field:
the dataclass-generated and inherited methods and dunder attributes.  This
list is representative, not exhaustive (CPython exposes further inherited
dunders); the definitions below are therefore parameterised by the actual
class-attribute list, and this known subset is used for concrete
evaluations.  Every class attribute holds a non-integer value (a method, a
string, a dict, the class object), so integer addition on it raises
`TypeError`. -/
def statClassAttrs : List String :=
  [("__init__"), ("__repr__"), ("__eq__"), ("__post_init__"), ("__doc__"),
   ("__module__"), ("__dict__"), ("__class__"), ("__dataclass_fields__"),
   ("__dataclass_params__")]

/-- A `ProcessingStats` instance as a Python object: the dataclass fields
plus any instance attributes later created by `setattr` with a non-field
name (these shadow same-named class attributes and hold the integer that
`set_counter` stored). -/
structure StatsObj where
  stats : ProcessingStats
  extra : List (String × Int)
  deriving Repr, DecidableEq

/-- `setattr` on a non-field attribute name: overwrite the instance
attribute if present, else create it. -/
def setExtra (l : List (String × Int)) (name : String) (value : Int) :
    List (String × Int) :=
  if l.any (fun p => p.1 == name) then
    l.map (fun p => if p.1 == name then (p.1, value) else p)
  else
    l ++ [(name, value)]

/-- `hasattr(self.stats, name)` (statistics.py lines 77, 92): true for the
dataclass fields, for the class attributes (`classAttrs` is the full class
attribute list of `ProcessingStats`, of which `statClassAttrs` is a known
subset), and for any dynamically added instance attribute. -/
def statHasAttr (classAttrs : List String) (o : StatsObj) (name : String) :
    Bool :=
  statFieldNames.contains name || classAttrs.contains name ||
    (o.extra.map Prod.fst).contains name

/-- `StatisticsCollector.increment` (statistics.py lines 69-82): when
`hasattr` is true the attribute is read, `amount` is added, and the sum is
written back.  Counter fields update; `start_time`/`end_time` hold a
`datetime`/`None` and addition raises `TypeError`; any other attribute is an
integer instance attribute previously stored by `set_counter` (incremented
in place) or a class attribute holding a non-integer value, where addition
raises `TypeError`.  When `hasattr` is false only a warning is logged and
nothing changes. -/
def incr (classAttrs : List String) (o : StatsObj) (counter : String)
    (amount : Int) : Except String StatsObj :=
  if statHasAttr classAttrs o counter then
    match counter with
    | "processed" =>
        Except.ok { o with stats :=
          { o.stats with processed := o.stats.processed + amount } }
    | "moved" =>
        Except.ok { o with stats :=
          { o.stats with moved := o.stats.moved + amount } }
    | "copied" =>
        Except.ok { o with stats :=
          { o.stats with copied := o.stats.copied + amount } }
    | "skipped" =>
        Except.ok { o with stats :=
          { o.stats with skipped := o.stats.skipped + amount } }
    | "errors" =>
        Except.ok { o with stats :=
          { o.stats with errors := o.stats.errors + amount } }
    | "no_date" =>
        Except.ok { o with stats :=
          { o.stats with no_date := o.stats.no_date + amount } }
    | "videos_processed" =>
        Except.ok { o with stats :=
          { o.stats with videos_processed :=
            o.stats.videos_processed + amount } }
    | "thumbnails_processed" =>
        Except.ok { o with stats :=
          { o.stats with thumbnails_processed :=
            o.stats.thumbnails_processed + amount } }
    | "mpg_merged" =>
        Except.ok { o with stats :=
          { o.stats with mpg_merged := o.stats.mpg_merged + amount } }
    | "thm_deleted" =>
        Except.ok { o with stats :=
          { o.stats with thm_deleted := o.stats.thm_deleted + amount } }
    | "mpg_deleted" =>
        Except.ok { o with stats :=
          { o.stats with mpg_deleted := o.stats.mpg_deleted + amount } }
    | "backups_created" =>
        Except.ok { o with stats :=
          { o.stats with backups_created := o.stats.backups_created + amount } }
    | "cache_hits" =>
        Except.ok { o with stats :=
          { o.stats with cache_hits := o.stats.cache_hits + amount } }
    | "cache_misses" =>
        Except.ok { o with stats :=
          { o.stats with cache_misses := o.stats.cache_misses + amount } }
    | "prev_thm_deleted" =>
        Except.ok { o with stats :=
          { o.stats with prev_thm_deleted :=
            o.stats.prev_thm_deleted + amount } }
    | "start_time" => Except.error ("TypeError")
    | "end_time" => Except.error ("TypeError")
    | _ =>
      match o.extra.find? (fun p => p.1 == counter) with
      | some p =>
          Except.ok { o with extra := setExtra o.extra counter (p.2 + amount) }
      | none => Except.error ("TypeError")
  else
    Except.ok o

/-- `StatisticsCollector.set_counter` (statistics.py lines 84-96): when
`hasattr` is true, `setattr` stores the value — into a counter field, into
`start_time`/`end_time` (stored as a raw timestamp), or as an instance
attribute that shadows the same-named class attribute; `setattr` never
raises.  When `hasattr` is false only a warning is logged and nothing
changes. -/
def setCounter (classAttrs : List String) (o : StatsObj) (counter : String)
    (value : Int) : StatsObj :=
  if statHasAttr classAttrs o counter then
    match counter with
    | "processed" => { o with stats := { o.stats with processed := value } }
    | "moved" => { o with stats := { o.stats with moved := value } }
    | "copied" => { o with stats := { o.stats with copied := value } }
    | "skipped" => { o with stats := { o.stats with skipped := value } }
    | "errors" => { o with stats := { o.stats with errors := value } }
    | "no_date" => { o with stats := { o.stats with no_date := value } }
    | "videos_processed" =>
        { o with stats := { o.stats with videos_processed := value } }
    | "thumbnails_processed" =>
        { o with stats := { o.stats with thumbnails_processed := value } }
    | "mpg_merged" =>
        { o with stats := { o.stats with mpg_merged := value } }
    | "thm_deleted" =>
        { o with stats := { o.stats with thm_deleted := value } }
    | "mpg_deleted" =>
        { o with stats := { o.stats with mpg_deleted := value } }
    | "backups_created" =>
        { o with stats := { o.stats with backups_created := value } }
    | "cache_hits" =>
        { o with stats := { o.stats with cache_hits := value } }
    | "cache_misses" =>
        { o with stats := { o.stats with cache_misses := value } }
    | "prev_thm_deleted" =>
        { o with stats := { o.stats with prev_thm_deleted := value } }
    | "start_time" =>
        { o with stats := { o.stats with start_time := some value } }
    | "end_time" =>
        { o with stats := { o.stats with end_time := some value } }
    | _ => { o with extra := setExtra o.extra counter value }
  else
    o

/-- Convenience used by the organizer embeddings:
`stats_collector.increment(name)` on a fresh collector with one of the 15
counter names.  Those call sites can never hit the `TypeError` branch, so
the error case (kept for totality) returns the state unchanged. -/
def bump (s : ProcessingStats) (counter : String) : ProcessingStats :=
  match incr statClassAttrs ⟨s, []⟩ counter 1 with
  | Except.ok o2 => o2.stats
  | Except.error _ => s

theorem bump_processed (s : ProcessingStats) :
    bump s ("processed") = { s with processed := s.processed + 1 } := rfl

theorem bump_moved (s : ProcessingStats) :
    bump s ("moved") = { s with moved := s.moved + 1 } := rfl

theorem bump_copied (s : ProcessingStats) :
    bump s ("copied") = { s with copied := s.copied + 1 } := rfl

theorem bump_errors (s : ProcessingStats) :
    bump s ("errors") = { s with errors := s.errors + 1 } := rfl

/-- C10 counterexample: `__post_init__` and `__doc__` are not
`ProcessingStats` fields, yet `increment` on `__post_init__` raises
`TypeError` (a bound method plus an integer) instead of ignoring the name,
and `set_counter` on `__doc__` silently changes the object by creating a
shadowing instance attribute instead of leaving the state unchanged. -/
theorem c10_counterexample :
    incr statClassAttrs ⟨initStats, []⟩ ("__post_init__") 1 =
        Except.error ("TypeError") ∧
      ("__post_init__") ∉ statFieldNames ∧
      setCounter statClassAttrs ⟨initStats, []⟩ ("__doc__") 5 ≠
        (⟨initStats, []⟩ : StatsObj) ∧
      ("__doc__") ∉ statFieldNames := by
  exact ⟨by rfl, by decide, by decide, by decide⟩

/-- C10 (amended): for every attribute name for which `hasattr` is false —
not a dataclass field, not a class attribute (method or dunder), and not a
previously created instance attribute — `increment` and `set_counter` raise
no exception and leave the entire statistics state unchanged (the name is
ignored with a warning).  Non-field names for which `hasattr` is true do not
enjoy this: `increment` raises `TypeError` on them (see the
counterexample). -/
theorem c10_unknown_attr_ignored (classAttrs : List String) (o : StatsObj)
    (name : String) (amount value : Int)
    (h : statHasAttr classAttrs o name = false) :
    incr classAttrs o name amount = Except.ok o ∧
      setCounter classAttrs o name value = o := by
  constructor
  · unfold incr
    rw [if_neg (by simp [h])]
  · unfold setCounter
    rw [if_neg (by simp [h])]

/-- Witness for C10 at the concrete name `bogus`, which is neither a field
nor among the known class attributes. -/
theorem c10_unknown_attr_ignored_witness :
    incr statClassAttrs ⟨initStats, []⟩ ("bogus") 5 =
        Except.ok (⟨initStats, []⟩ : StatsObj) ∧
      setCounter statClassAttrs ⟨initStats, []⟩ ("bogus") 7 =
        (⟨initStats, []⟩ : StatsObj) :=
  c10_unknown_attr_ignored statClassAttrs ⟨initStats, []⟩ ("bogus") 5 7
    (by decide)

/-! ## Tasks, results and the worker loop (src/src/async_file_organizer.py) -/

/-- Embedding of the dataclass `FileTask` (async_file_organizer.py lines
34-45).  Paths are strings; the opaque `metadata` dict and the unused
`priority` field are omitted. -/
structure FileTask where
  source_path : String
  target_path : String
  operation : String
  deriving Repr, DecidableEq

/-- Embedding of the dataclass `ProcessingResult` (async_file_organizer.py
lines 48-55).  The floating-point `duration` is abstracted to `Nat` time
units. -/
structure ProcessingResult where
  task : FileTask
  success : Bool
  error : Option String
  duration : Nat
  bytes_processed : Nat
  deriving Repr, DecidableEq

/-- Possible behaviours of the environment when a worker executes one task:
`_execute_file_operation` returns success with a byte count, or returns
failure with an error message, or some other code in the body raises an
unexpected exception. -/
inductive ExecOutcome where
  | ok (bytes : Nat)
  | fail (err : String)
  | exn (msg : String)
  deriving Repr, DecidableEq

/-- Result construction of `_process_task_async` (async_file_organizer.py
lines 460-520): dry runs always succeed with 0 bytes; otherwise the outcome
of `_execute_file_operation` is packaged; an unexpected exception is caught
and packaged as a failure whose message is prefixed with
`Unexpected error: `.  In every case exactly one `ProcessingResult` carrying
the task is returned. -/
def processTask (dryRun : Bool) (outcome : ExecOutcome) (t : FileTask) :
    ProcessingResult :=
  if dryRun then
    ⟨t, true, none, 0, 0⟩
  else
    match outcome with
    | ExecOutcome.ok b => ⟨t, true, none, 0, b⟩
    | ExecOutcome.fail e => ⟨t, false, some e, 0, 0⟩
    | ExecOutcome.exn m => ⟨t, false, some ("Unexpected error: " ++ m), 0, 0⟩

theorem processTask_task (dryRun : Bool) (outcome : ExecOutcome)
    (t : FileTask) : (processTask dryRun outcome t).task = t := by
  cases dryRun <;> cases outcome <;> rfl

/-- Tasks of a queue-item sequence that actually reach a worker: the items
before the first `none` sentinel (`_worker`, lines 441-444, breaks on the
sentinel). -/
def dequeuedTasks : List (Option FileTask) → List FileTask
  | [] => []
  | none :: _ => []
  | some t :: rest => t :: dequeuedTasks rest

/-- The worker loop `_worker` (async_file_organizer.py lines 429-458): pull
queue items in order, stop on the `None` sentinel, and for each task push the
`ProcessingResult` produced by `_process_task_async` to the result queue.
`env` gives the execution outcome the environment produces for each task;
the returned list is the sequence of results pushed. -/
def workerRun (dryRun : Bool) (env : FileTask → ExecOutcome) :
    List (Option FileTask) → List ProcessingResult
  | [] => []
  | none :: _ => []
  | some t :: rest => processTask dryRun (env t) t :: workerRun dryRun env rest

/-- C2: for every file task dequeued by a worker, exactly one
`ProcessingResult` is pushed to the result queue, whether the execution
succeeds, fails after retries, or raises unexpectedly: the pushed results,
projected to their tasks, are exactly the dequeued tasks in order (hence with
the same multiplicity — no dequeued task terminates without a result). -/
theorem c2_one_result_per_dequeued_task (dryRun : Bool)
    (env : FileTask → ExecOutcome) (queue : List (Option FileTask)) :
    (workerRun dryRun env queue).map ProcessingResult.task =
      dequeuedTasks queue := by
  induction queue with
  | nil => rfl
  | cons item rest ih =>
    cases item with
    | none => rfl
    | some t =>
      simp only [workerRun, dequeuedTasks, List.map_cons, processTask_task]
      exact congrArg (t :: ·) ih

/-! ## Statistics updates of the async pipeline -/

/-- Statistics update performed by `_process_task_async`
(async_file_organizer.py lines 487-498): on success increment `processed`
and then `moved` or `copied` according to the task operation; on failure
increment only `errors`. -/
def updateTaskStats (s : ProcessingStats) (operation : String)
    (success : Bool) : ProcessingStats :=
  if success then
    let s1 := bump s ("processed")
    if operation = "move" then bump s1 ("moved")
    else if operation = "copy" then bump s1 ("copied")
    else s1
  else bump s ("errors")

/-- Accumulated statistics of a completed async run, folding the per-task
update of `_process_task_async` over the results in completion order. -/
def collectStats (s : ProcessingStats) : List ProcessingResult → ProcessingStats
  | [] => s
  | r :: rs => collectStats (updateTaskStats s r.task.operation r.success) rs

/-- C1 counterexample: a completed async run with a single failing move task
ends with `processed = 0`, `moved = 0`, `copied = 0`, `errors = 1`, so
`processed = moved + copied + errors` is false — a failing task increments
`errors` but never `processed`. -/
theorem c1_counterexample :
    ¬ ((collectStats initStats
          [⟨⟨("a.jpg"), ("2024/01/15/a.jpg"), ("move")⟩, false,
            some ("disk full"), 0, 0⟩]).processed =
        (collectStats initStats
          [⟨⟨("a.jpg"), ("2024/01/15/a.jpg"), ("move")⟩, false,
            some ("disk full"), 0, 0⟩]).moved +
        (collectStats initStats
          [⟨⟨("a.jpg"), ("2024/01/15/a.jpg"), ("move")⟩, false,
            some ("disk full"), 0, 0⟩]).copied +
        (collectStats initStats
          [⟨⟨("a.jpg"), ("2024/01/15/a.jpg"), ("move")⟩, false,
            some ("disk full"), 0, 0⟩]).errors) := by
  decide

theorem updateTaskStats_invariant (s : ProcessingStats) (operation : String)
    (success : Bool) (hop : operation = "move" ∨ operation = "copy")
    (h : s.processed = s.moved + s.copied) :
    (updateTaskStats s operation success).processed =
      (updateTaskStats s operation success).moved +
        (updateTaskStats s operation success).copied := by
  cases success with
  | false =>
    simpa [updateTaskStats, bump_errors] using h
  | true =>
    rcases hop with hop | hop <;> subst hop <;>
      simp [updateTaskStats, bump_processed, bump_moved, bump_copied] <;>
      omega

/-- C1 (amended): in the async pipeline every task operation is `move` or
`copy`, and for every completed run the final statistics satisfy
`processed = moved + copied`; failing tasks are counted in `errors` only and
do not enter `processed` (and skips never reach a worker at all). -/
theorem c1_processed_eq_moved_add_copied (s : ProcessingStats)
    (rs : List ProcessingResult)
    (hops : ∀ r ∈ rs, r.task.operation = "move" ∨ r.task.operation = "copy")
    (h : s.processed = s.moved + s.copied) :
    (collectStats s rs).processed =
      (collectStats s rs).moved + (collectStats s rs).copied := by
  induction rs generalizing s with
  | nil => exact h
  | cons r rest ih =>
    have hr := hops r (List.mem_cons_self r rest)
    refine ih (updateTaskStats s r.task.operation r.success)
      (fun x hx => hops x (List.mem_cons_of_mem r hx)) ?_
    exact updateTaskStats_invariant s r.task.operation r.success hr h

/-- Witness for C1 at a concrete run: one successful move, one successful
copy and one failure, starting from fresh statistics. -/
theorem c1_processed_eq_moved_add_copied_witness :
    (collectStats initStats
        [⟨⟨("a.jpg"), ("t/a.jpg"), ("move")⟩, true, none, 0, 10⟩,
         ⟨⟨("b.jpg"), ("t/b.jpg"), ("copy")⟩, true, none, 0, 20⟩,
         ⟨⟨("c.jpg"), ("t/c.jpg"), ("copy")⟩, false, some ("boom"), 0, 0⟩]).processed =
      (collectStats initStats
        [⟨⟨("a.jpg"), ("t/a.jpg"), ("move")⟩, true, none, 0, 10⟩,
         ⟨⟨("b.jpg"), ("t/b.jpg"), ("copy")⟩, true, none, 0, 20⟩,
         ⟨⟨("c.jpg"), ("t/c.jpg"), ("copy")⟩, false, some ("boom"), 0, 0⟩]).moved +
      (collectStats initStats
        [⟨⟨("a.jpg"), ("t/a.jpg"), ("move")⟩, true, none, 0, 10⟩,
         ⟨⟨("b.jpg"), ("t/b.jpg"), ("copy")⟩, true, none, 0, 20⟩,
         ⟨⟨("c.jpg"), ("t/c.jpg"), ("copy")⟩, false, some ("boom"), 0, 0⟩]).copied :=
  c1_processed_eq_moved_add_copied initStats
    [⟨⟨("a.jpg"), ("t/a.jpg"), ("move")⟩, true, none, 0, 10⟩,
     ⟨⟨("b.jpg"), ("t/b.jpg"), ("copy")⟩, true, none, 0, 20⟩,
     ⟨⟨("c.jpg"), ("t/c.jpg"), ("copy")⟩, false, some ("boom"), 0, 0⟩]
    (by decide) (by decide)

/-! ## Duplicate resolution

Two implementations exist in the repository: the asynchronous
`AsyncFileOrganizer._handle_duplicate_async` (async_file_organizer.py lines
363-401) and the synchronous `FileOrganizer._handle_duplicate`
(file_organizer.py lines 639-692).  Filesystem existence is modelled by a
boolean-valued function on file names inside the target directory. -/

/-- Python `f"{n:03d}"`: the number rendered zero-padded to width three
(numbers of 1000 and above render with all their digits). -/
def pad3 (n : Nat) : String :=
  if n < 1000 then
    String.mk [Nat.digitChar (n / 100), Nat.digitChar (n / 10 % 10),
               Nat.digitChar (n % 10)]
  else
    toString n

example : pad3 1 = "001" := rfl
example : pad3 42 = "042" := rfl
example : pad3 999 = "999" := rfl

/-- Test of `re.search` against the pattern of an underscore followed by
exactly three digits at the end of the stem (file_organizer.py lines
666-669). -/
def hasNumericSuffix3 (s : String) : Bool :=
  match s.toList.reverse with
  | d1 :: d2 :: d3 :: '_' :: _ => d1.isDigit && d2.isDigit && d3.isDigit
  | _ => false

example : hasNumericSuffix3 ("photo_003") = true := by decide
example : hasNumericSuffix3 ("photo_0003") = false := by decide
example : hasNumericSuffix3 ("photo") = false := by decide

/-- Suffix stripping of `FileOrganizer._handle_duplicate` (file_organizer.py
lines 671-676): when the stem ends in an `_NNN` numeric suffix, drop the
final four characters, else keep the stem. -/
def stripSuffix3 (s : String) : String :=
  if hasNumericSuffix3 s then
    String.mk (s.toList.take (s.toList.length - 4))
  else
    s

example : stripSuffix3 ("photo_003") = "photo" := by decide

/-- The rename scan of `_handle_duplicate_async` (async_file_organizer.py
lines 387-399): try `{base}_{counter:03d}{suffix}` for `counter = 1, 2, …`,
return the first free name; after the check `counter > 9999` the loop gives
up (the caller then falls back to the original target).  The extra `fuel`
argument only drives structural recursion: the caller passes `10000`, so the
`fuel = 0` branch is unreachable because the counter bound always triggers
first. -/
def renameLoopA (ex : String → Bool) (base sfx : String) :
    Nat → Nat → Option String
  | _, 0 => none
  | counter, fuel + 1 =>
    if 9999 < counter then none
    else
      let newName := base ++ "_" ++ pad3 counter ++ sfx
      if ex newName then renameLoopA ex base sfx (counter + 1) fuel
      else some newName

/-- `AsyncFileOrganizer._handle_duplicate_async` (async_file_organizer.py
lines 363-401) for a target with the given stem and extension: return the
target if it does not exist; under `skip` and `overwrite` return the target
unchanged; under `rename` scan counters 1 to 9999 over the unstripped stem,
returning the original target on exhaustion. -/
def handleDuplicateAsync (ex : String → Bool) (policy stem sfx : String) :
    String :=
  let target := stem ++ sfx
  if ex target = false then target
  else if policy = "skip" then target
  else if policy = "overwrite" then target
  else if policy = "rename" then
    match renameLoopA ex stem sfx 1 10000 with
    | some newName => newName
    | none => target
  else target

/-- The rename scan of `FileOrganizer._handle_duplicate` (file_organizer.py
lines 679-690): like the async scan but capped after the check
`counter > 999`, and exhaustion yields `None` (skip).  The `fuel` argument
(callers pass `1000`) only drives structural recursion. -/
def renameLoopS (ex : String → Bool) (base sfx : String) :
    Nat → Nat → Option String
  | _, 0 => none
  | counter, fuel + 1 =>
    if 999 < counter then none
    else
      let newName := base ++ "_" ++ pad3 counter ++ sfx
      if ex newName then renameLoopS ex base sfx (counter + 1) fuel
      else some newName

/-- `FileOrganizer._handle_duplicate` (file_organizer.py lines 639-692),
called when the target exists: `skip` yields `none` (no task), `overwrite`
yields the target unchanged, `rename` strips any pre-existing `_NNN` suffix
from the stem and scans counters 1 to 999, yielding `none` on exhaustion. -/
def handleDuplicateSync (ex : String → Bool) (policy stem sfx : String) :
    Option String :=
  if policy = "skip" then none
  else if policy = "overwrite" then some (stem ++ sfx)
  else if policy = "rename" then
    renameLoopS ex (stripSuffix3 stem) sfx 1 1000
  else some (stem ++ sfx)

/-- C3 counterexample: the async resolver does not strip the `_003` suffix —
resolving `photo_003.jpg` (which exists) under the rename policy produces the
compounded name `photo_003_001.jpg`. -/
theorem c3_counterexample :
    handleDuplicateAsync (fun s => s == ("photo_003.jpg")) ("rename")
      ("photo_003") (".jpg") = ("photo_003_001.jpg") := by
  decide

theorem renameLoopS_some (ex : String → Bool) (base sfx : String) :
    ∀ fuel counter r, renameLoopS ex base sfx counter fuel = some r →
      ∃ k, counter ≤ k ∧ k ≤ 999 ∧ r = base ++ "_" ++ pad3 k ++ sfx := by
  intro fuel
  induction fuel with
  | zero =>
    intro counter r h
    exact absurd h (by simp [renameLoopS])
  | succ fuel ih =>
    intro counter r h
    simp only [renameLoopS] at h
    split at h
    · exact absurd h (by simp)
    · next hcnt =>
      split at h
      · obtain ⟨k, hk1, hk2, hk3⟩ := ih (counter + 1) r h
        exact ⟨k, by omega, hk2, hk3⟩
      · exact ⟨counter, le_refl counter, by omega, by
          simpa using h.symm⟩

theorem hasNumericSuffix3_length (s : String)
    (h : hasNumericSuffix3 s = true) : 4 ≤ s.length := by
  unfold hasNumericSuffix3 at h
  split at h
  · next d1 d2 d3 rest heq =>
    have hlen : s.toList.reverse.length = rest.length + 4 := by
      rw [heq]; simp
    have : s.toList.length = s.length := rfl
    rw [List.length_reverse] at hlen
    omega
  · exact absurd h (by simp)

theorem stripSuffix3_length (s : String) (h : hasNumericSuffix3 s = true) :
    (stripSuffix3 s).length = s.length - 4 := by
  unfold stripSuffix3
  rw [if_pos h]
  show (s.toList.take (s.toList.length - 4)).length = s.length - 4
  rw [List.length_take, min_eq_left (Nat.sub_le _ _)]
  rfl

theorem pad3_length (k : Nat) (h : k ≤ 999) : (pad3 k).length = 3 := by
  unfold pad3
  rw [if_pos (by omega)]
  rfl

/-- C3 (amended): the synchronous resolver `FileOrganizer._handle_duplicate`
strips a pre-existing `_NNN` suffix before deriving the renamed target: for
every candidate whose stem ends in `_NNN`, a successful rename resolution is
the stripped stem with a fresh three-digit counter, and it is never a
compounded name obtained by appending a counter to the unstripped stem.  (The
asynchronous resolver does not strip — see the counterexample.) -/
theorem c3_sync_rename_strips_suffix (ex : String → Bool) (stem sfx r : String)
    (hstem : hasNumericSuffix3 stem = true)
    (hres : handleDuplicateSync ex ("rename") stem sfx = some r) :
    (∃ k, 1 ≤ k ∧ k ≤ 999 ∧ r = stripSuffix3 stem ++ "_" ++ pad3 k ++ sfx) ∧
      ∀ j, j ≤ 999 → r ≠ stem ++ "_" ++ pad3 j ++ sfx := by
  have hres2 : renameLoopS ex (stripSuffix3 stem) sfx 1 1000 = some r := by
    simpa [handleDuplicateSync] using hres
  obtain ⟨k, hk1, hk2, hk3⟩ := renameLoopS_some ex (stripSuffix3 stem) sfx
    1000 1 r hres2
  refine ⟨⟨k, hk1, hk2, hk3⟩, ?_⟩
  intro j hj heq
  have h4 : 4 ≤ stem.length := hasNumericSuffix3_length stem hstem
  have hlenr : r.length = (stem.length - 4) + 1 + 3 + sfx.length := by
    rw [hk3]
    simp only [String.length_append]
    rw [stripSuffix3_length stem hstem, pad3_length k hk2]
    rfl
  have hlenc : r.length = stem.length + 1 + 3 + sfx.length := by
    rw [heq]
    simp only [String.length_append]
    rw [pad3_length j hj]
    rfl
  omega

/-- Witness for C3 at the concrete stem `photo_003` with nothing else in the
target directory: the sync resolver yields `photo_001.jpg`. -/
theorem c3_sync_rename_strips_suffix_witness :
    (∃ k, 1 ≤ k ∧ k ≤ 999 ∧
        ("photo_001.jpg") = stripSuffix3 ("photo_003") ++ "_" ++ pad3 k ++
          (".jpg")) ∧
      ∀ j, j ≤ 999 →
        ("photo_001.jpg") ≠ ("photo_003") ++ "_" ++ pad3 j ++ (".jpg") :=
  c3_sync_rename_strips_suffix (fun _ => false) ("photo_003") (".jpg")
    ("photo_001.jpg") (by decide) (by decide)

/-- C5: under the `skip` policy the async resolver returns the existing
candidate path unchanged — exactly what the `overwrite` policy returns — so
the task builder still emits a `FileTask` whose target is the existing file,
which the worker then overwrites.  The synchronous resolver answers `none`
(no task) for the same input, as the claim demands. -/
theorem c5_skip_behaves_like_overwrite :
    handleDuplicateAsync (fun s => s == ("photo.jpg")) ("skip") ("photo")
        (".jpg") = ("photo.jpg") ∧
      handleDuplicateAsync (fun s => s == ("photo.jpg")) ("overwrite")
        ("photo") (".jpg") = ("photo.jpg") ∧
      handleDuplicateSync (fun s => s == ("photo.jpg")) ("skip") ("photo")
        (".jpg") = none := by
  exact ⟨by decide, by decide, by decide⟩

theorem renameLoopA_all_exist (base sfx : String) :
    ∀ fuel counter, renameLoopA (fun _ => true) base sfx counter fuel = none := by
  intro fuel
  induction fuel with
  | zero => intro counter; rfl
  | succ fuel ih =>
    intro counter
    simp only [renameLoopA]
    split
    · rfl
    · simpa using ih (counter + 1)

/-- C6: when every numeric suffix is already taken, the async resolver under
the rename policy returns the original target path — a path that exists — so
a task is still produced and the existing file is overwritten, instead of the
claimed fall-back to skip.  (The sync resolver returns `None` on exhaustion
of its cap, which the caller turns into a skip.) -/
theorem c6_rename_exhaustion_returns_existing_target :
    handleDuplicateAsync (fun _ => true) ("rename") ("photo") (".jpg") =
      ("photo.jpg") := by
  have hloop := renameLoopA_all_exist ("photo") (".jpg") 10000 1
  simp [handleDuplicateAsync, hloop]

/-! ## Retry executor (`_execute_file_operation`, async_file_organizer.py
lines 522-559) -/

/-- Observable trace of one `_execute_file_operation` call: the returned
triple `(success, error, bytes_processed)` plus instrumentation — the backoff
sleeps that occurred (in units of the base delay of 0.1 s) and the number of
attempts made. -/
structure RetryTrace where
  success : Bool
  error : Option String
  bytes : Nat
  delays : List Nat
  attemptsMade : Nat
  deriving Repr, DecidableEq

/-- The `for attempt in range(retry_attempts)` loop of
`_execute_file_operation`: `op attempt` is what the attempt does (success
with the file size, or an exception message).  A successful attempt returns
immediately; a failing final attempt (`attempt == retry_attempts - 1`, i.e.
`remaining = 0` after this attempt) returns failure with that error; any
other failing attempt sleeps `0.1 * 2 ** attempt` seconds (recorded as
`2 ^ attempt` base-delay units) and retries.  Falling out of the loop
(`retry_attempts = 0`) returns the `Max retries exceeded` failure of line
559. -/
def retryLoop (op : Nat → Except String Nat) :
    Nat → Nat → RetryTrace
  | _, 0 => ⟨false, some ("Max retries exceeded"), 0, [], 0⟩
  | attempt, remaining + 1 =>
    match op attempt with
    | Except.ok size => ⟨true, none, size, [], 1⟩
    | Except.error e =>
      if remaining = 0 then ⟨false, some e, 0, [], 1⟩
      else
        let r := retryLoop op (attempt + 1) remaining
        ⟨r.success, r.error, r.bytes, 2 ^ attempt :: r.delays,
          r.attemptsMade + 1⟩

/-- `_execute_file_operation` with the configured `retry_attempts`, starting
at attempt 0. -/
def executeFileOperation (retry_attempts : Nat)
    (op : Nat → Except String Nat) : RetryTrace :=
  retryLoop op 0 retry_attempts

theorem retryLoop_attempts_le (op : Nat → Except String Nat) :
    ∀ remaining attempt,
      (retryLoop op attempt remaining).attemptsMade ≤ remaining := by
  intro remaining
  induction remaining with
  | zero => intro attempt; exact Nat.le_refl 0
  | succ remaining ih =>
    intro attempt
    simp only [retryLoop]
    split
    · exact Nat.le_add_left 1 remaining
    · split
      · exact Nat.le_add_left 1 remaining
      · exact Nat.succ_le_succ (ih (attempt + 1))

theorem retryLoop_attempts_pos (op : Nat → Except String Nat) :
    ∀ remaining attempt, 1 ≤ remaining →
      1 ≤ (retryLoop op attempt remaining).attemptsMade := by
  intro remaining attempt h
  match remaining, h with
  | remaining + 1, _ =>
    simp only [retryLoop]
    split
    · exact Nat.le_refl 1
    · split
      · exact Nat.le_refl 1
      · exact Nat.le_add_left 1 _

theorem pow_delay_shift (a m : Nat) :
    2 ^ a :: (List.range m).map (fun k => 2 ^ (a + 1 + k)) =
      (List.range (m + 1)).map (fun k => 2 ^ (a + k)) := by
  rw [List.range_succ_eq_map, List.map_cons, List.map_map]
  congr 1
  apply List.map_congr_left
  intro x _
  simp only [Function.comp_apply]
  congr 1
  omega

theorem retryLoop_delays (op : Nat → Except String Nat) :
    ∀ remaining attempt,
      (retryLoop op attempt remaining).delays =
        (List.range ((retryLoop op attempt remaining).attemptsMade - 1)).map
          (fun k => 2 ^ (attempt + k)) := by
  intro remaining
  induction remaining with
  | zero => intro attempt; rfl
  | succ remaining ih =>
    intro attempt
    simp only [retryLoop]
    split
    · rfl
    · split
      · rfl
      · next hrem =>
        have hrem1 : 1 ≤ remaining := Nat.one_le_iff_ne_zero.mpr hrem
        have hpos := retryLoop_attempts_pos op remaining (attempt + 1) hrem1
        obtain ⟨m, hm⟩ := Nat.exists_eq_add_of_le hpos
        have hm2 : (retryLoop op (attempt + 1) remaining).attemptsMade =
            m + 1 := by omega
        show 2 ^ attempt :: (retryLoop op (attempt + 1) remaining).delays =
          (List.range
            ((retryLoop op (attempt + 1) remaining).attemptsMade + 1 - 1)).map
            (fun k => 2 ^ (attempt + k))
        rw [ih (attempt + 1), hm2]
        simp only [Nat.add_sub_cancel]
        exact pow_delay_shift attempt m

theorem retryLoop_all_fail (op : Nat → Except String Nat)
    (errs : Nat → String) (hfail : ∀ k, op k = Except.error (errs k)) :
    ∀ remaining attempt, 1 ≤ remaining →
      (retryLoop op attempt remaining).success = false ∧
        (retryLoop op attempt remaining).error =
          some (errs (attempt + remaining - 1)) ∧
        (retryLoop op attempt remaining).attemptsMade = remaining := by
  intro remaining
  induction remaining with
  | zero => intro attempt h; omega
  | succ remaining ih =>
    intro attempt _
    simp only [retryLoop, hfail attempt]
    split
    · next hrem =>
      subst hrem
      exact ⟨rfl, congrArg (fun z => some (errs z)) (by omega), rfl⟩
    · next hrem =>
      have hrem1 : 1 ≤ remaining := Nat.one_le_iff_ne_zero.mpr hrem
      refine ⟨(ih (attempt + 1) hrem1).1, ?_, ?_⟩
      · exact ((ih (attempt + 1) hrem1).2.1).trans
          (congrArg (fun z => some (errs z)) (by omega))
      · exact congrArg (· + 1) (ih (attempt + 1) hrem1).2.2

/-- C4: the retry executor makes at most `retry_attempts` attempts; between
consecutive attempts it sleeps exactly `base_delay * 2 ^ attempt` (the
delays, in base-delay units, are `2 ^ 0, 2 ^ 1, …` indexed by the failed
attempt); and when every attempt fails it makes exactly `retry_attempts`
attempts and returns a failure carrying the last attempt's error message —
no exception escapes, the function is total. -/
theorem c4_retry_backoff (n : Nat) (op : Nat → Except String Nat)
    (errs : Nat → String) (hn : 1 ≤ n)
    (hfail : ∀ k, op k = Except.error (errs k)) :
    (∀ op2 : Nat → Except String Nat,
        (executeFileOperation n op2).attemptsMade ≤ n) ∧
      (∀ op2 : Nat → Except String Nat,
        (executeFileOperation n op2).delays =
          (List.range ((executeFileOperation n op2).attemptsMade - 1)).map
            (fun k => 2 ^ k)) ∧
      (executeFileOperation n op).success = false ∧
      (executeFileOperation n op).error = some (errs (n - 1)) ∧
      (executeFileOperation n op).attemptsMade = n ∧
      (executeFileOperation n op).delays =
        (List.range (n - 1)).map (fun k => 2 ^ k) := by
  have hall := retryLoop_all_fail op errs hfail n 0 hn
  refine ⟨fun op2 => retryLoop_attempts_le op2 n 0, fun op2 => ?_,
    hall.1, ?_, hall.2.2, ?_⟩
  · simp only [executeFileOperation]
    rw [retryLoop_delays op2 n 0]
    apply List.map_congr_left
    intro x _
    rw [Nat.zero_add]
  · exact hall.2.1.trans (congrArg (fun z => some (errs z)) (by omega))
  · simp only [executeFileOperation]
    rw [retryLoop_delays op n 0, hall.2.2]
    apply List.map_congr_left
    intro x _
    rw [Nat.zero_add]

/-- Error message text used by the C4 witness environment. -/
def failMsg (k : Nat) : String := String.append ("attempt ") (toString k)

/-- Witness for C4 with the default `retry_attempts = 3` and an operation
that fails every time: three attempts are made and the result carries the
third attempt's error message. -/
theorem c4_retry_backoff_witness :
    (executeFileOperation 3 (fun k => Except.error (failMsg k))).attemptsMade
        = 3 ∧
      (executeFileOperation 3 (fun k => Except.error (failMsg k))).error =
        some (failMsg 2) := by
  have h := c4_retry_backoff 3 (fun k => Except.error (failMsg k)) failMsg
    (by decide) (fun k => rfl)
  exact ⟨h.2.2.2.2.1, h.2.2.2.1⟩

/-! ## Cancellation (`_generate_tasks_async` lines 270-313 and the batch
loop of `organize_photos_async` lines 147-160) -/

/-- Observable trace of the task generator: the tasks it emitted and the
files for which it consulted the Date Extractor. -/
structure TaskGenTrace where
  tasks : List FileTask
  extracted : List String
  deriving Repr, DecidableEq

/-- The loop of `_generate_tasks_async` (async_file_organizer.py lines
281-313): at each iteration the cancellation token is read first
(`cancelled i` is its value at the i-th iteration); when set, the loop
breaks before consulting the Date Extractor.  Otherwise the date is
extracted and `build` turns the file into a task (`none` models the
per-file exception path of lines 311-313, which emits nothing and counts an
error). -/
def generateTasksAux (cancelled : Nat → Bool)
    (build : String → Option FileTask) : Nat → List String → TaskGenTrace
  | _, [] => ⟨[], []⟩
  | i, f :: fs =>
    if cancelled i then ⟨[], []⟩
    else
      match build f with
      | some t =>
        ⟨t :: (generateTasksAux cancelled build (i + 1) fs).tasks,
         f :: (generateTasksAux cancelled build (i + 1) fs).extracted⟩
      | none =>
        ⟨(generateTasksAux cancelled build (i + 1) fs).tasks,
         f :: (generateTasksAux cancelled build (i + 1) fs).extracted⟩

/-- The full generator run starting at iteration 0. -/
def generateTasks (cancelled : Nat → Bool)
    (build : String → Option FileTask) (files : List String) : TaskGenTrace :=
  generateTasksAux cancelled build 0 files

/-- The batch-dispatch loop of `organize_photos_async`
(async_file_organizer.py lines 147-160): before admitting the i-th batch to
the worker queue the cancellation token is read; when set, the loop breaks
and no further batch is enqueued. -/
def admitBatchesAux (cancelled : Nat → Bool) :
    Nat → List (List FileTask) → List (List FileTask)
  | _, [] => []
  | i, b :: bs =>
    if cancelled i then [] else b :: admitBatchesAux cancelled (i + 1) bs

/-- The batch-admission run starting at iteration 0. -/
def admitBatches (cancelled : Nat → Bool) (batches : List (List FileTask)) :
    List (List FileTask) :=
  admitBatchesAux cancelled 0 batches

theorem generateTasksAux_le (cancelled : Nat → Bool)
    (build : String → Option FileTask) (k : Nat)
    (hmono : ∀ i j, i ≤ j → cancelled i = true → cancelled j = true)
    (hk : cancelled k = true) :
    ∀ (files : List String) (i : Nat),
      (generateTasksAux cancelled build i files).extracted.length ≤ k - i ∧
        (generateTasksAux cancelled build i files).tasks.length ≤ k - i := by
  intro files
  induction files with
  | nil => intro i; exact ⟨Nat.zero_le _, Nat.zero_le _⟩
  | cons f fs ih =>
    intro i
    simp only [generateTasksAux]
    split
    · exact ⟨Nat.zero_le _, Nat.zero_le _⟩
    · next hci =>
      have hik : i < k := by
        by_contra hge
        push_neg at hge
        exact hci (hmono k i hge hk)
      obtain ⟨h1, h2⟩ := ih (i + 1)
      cases hbuild : build f with
      | none =>
        constructor
        · show (f :: (generateTasksAux cancelled build (i + 1)
              fs).extracted).length ≤ k - i
          rw [List.length_cons]
          omega
        · show (generateTasksAux cancelled build (i + 1) fs).tasks.length ≤
            k - i
          omega
      | some t =>
        constructor
        · show (f :: (generateTasksAux cancelled build (i + 1)
              fs).extracted).length ≤ k - i
          rw [List.length_cons]
          omega
        · show (t :: (generateTasksAux cancelled build (i + 1)
              fs).tasks).length ≤ k - i
          rw [List.length_cons]
          omega

theorem admitBatchesAux_le (cancelled : Nat → Bool) (k : Nat)
    (hmono : ∀ i j, i ≤ j → cancelled i = true → cancelled j = true)
    (hk : cancelled k = true) :
    ∀ (batches : List (List FileTask)) (i : Nat),
      (admitBatchesAux cancelled i batches).length ≤ k - i := by
  intro batches
  induction batches with
  | nil => intro i; exact Nat.zero_le _
  | cons b bs ih =>
    intro i
    simp only [admitBatchesAux]
    split
    · exact Nat.zero_le _
    · next hci =>
      have hik : i < k := by
        by_contra hge
        push_neg at hge
        exact hci (hmono k i hge hk)
      have h1 := ih (i + 1)
      simp only [List.length_cons]
      omega

/-- C7: the cancellation token is monotone (set once, never cleared in a
run); once it reads `true` at observation index `k`, the task generator
consults the Date Extractor and emits tasks at most `k` times in total (so
nothing at or beyond index `k` is extracted or emitted), and the batch loop
admits at most `k` batches to the worker queue. -/
theorem c7_cancellation_stops_pipeline (cancelled : Nat → Bool)
    (build : String → Option FileTask) (files : List String)
    (batches : List (List FileTask)) (k : Nat)
    (hmono : ∀ i j, i ≤ j → cancelled i = true → cancelled j = true)
    (hk : cancelled k = true) :
    (generateTasks cancelled build files).extracted.length ≤ k ∧
      (generateTasks cancelled build files).tasks.length ≤ k ∧
      (admitBatches cancelled batches).length ≤ k := by
  obtain ⟨h1, h2⟩ := generateTasksAux_le cancelled build k hmono hk files 0
  have h3 := admitBatchesAux_le cancelled k hmono hk batches 0
  exact ⟨by simpa using h1, by simpa using h2, by simpa using h3⟩

/-- Witness for C7: a token set from the second observation on stops the
generator after at most one extraction over three files. -/
theorem c7_cancellation_stops_pipeline_witness :
    (generateTasks (fun i => decide (1 ≤ i))
        (fun f => some ⟨f, f, ("copy")⟩)
        [("a.jpg"), ("b.jpg"), ("c.jpg")]).extracted.length ≤ 1 :=
  (c7_cancellation_stops_pipeline (fun i => decide (1 ≤ i))
    (fun f => some ⟨f, f, ("copy")⟩) [("a.jpg"), ("b.jpg"), ("c.jpg")] [] 1
    (fun i j hij hi => decide_eq_true (le_trans (of_decide_eq_true hi) hij))
    (by decide)).1

/-! ## Discovery (`_discover_files_async` and `_is_organized_directory`,
async_file_organizer.py lines 205-268) -/

/-- A filesystem tree: named files and named directories with children. -/
inductive FSEntry where
  | file (name : String)
  | dir (name : String) (children : List FSEntry)
  deriving Repr

/-- One run of digits of the given length (model of a `\d{n}` regex
group): consume exactly `n` ASCII digits from the character list. -/
def digitRun : Nat → List Char → Option (List Char)
  | 0, cs => some cs
  | _ + 1, [] => none
  | n + 1, c :: cs => if c.isDigit then digitRun n cs else none

/-- Full-string match of dash-separated digit groups, modelling the
anchored patterns `^\d{a}$`, `^\d{a}-\d{b}$`, … of
`_is_organized_directory`. -/
def matchGroups : List Nat → List Char → Bool
  | [], cs => cs.isEmpty
  | n :: rest, cs =>
    match digitRun n cs with
    | none => false
    | some cs2 =>
      match rest, cs2 with
      | [], [] => true
      | [], _ => false
      | _ :: _, '-' :: cs3 => matchGroups rest cs3
      | _ :: _, _ => false

/-- `AsyncFileOrganizer._is_organized_directory` (async_file_organizer.py
lines 242-268): the directory name matches one of the five date patterns —
a four-digit year, `YYYY-MM`, `YYYY-MM-DD`, a two-digit month, or
`MM-DD`. -/
def isOrganizedDirectory (name : String) : Bool :=
  matchGroups [4] name.toList || matchGroups [4, 2] name.toList ||
    matchGroups [4, 2, 2] name.toList || matchGroups [2] name.toList ||
    matchGroups [2, 2] name.toList

example : isOrganizedDirectory ("2024") = true := by decide
example : isOrganizedDirectory ("2024-01") = true := by decide
example : isOrganizedDirectory ("2024-01-15") = true := by decide
example : isOrganizedDirectory ("01") = true := by decide
example : isOrganizedDirectory ("01-15") = true := by decide
example : isOrganizedDirectory ("Holiday") = false := by decide
example : isOrganizedDirectory ("20245") = false := by decide

/-- `FileOrganizer._is_organized_directory` (file_organizer.py lines
293-319) checks only four patterns: the synchronous organizer does not treat
`MM-DD` names as organized. -/
def isOrganizedDirectorySync (name : String) : Bool :=
  matchGroups [4] name.toList || matchGroups [4, 2] name.toList ||
    matchGroups [4, 2, 2] name.toList || matchGroups [2] name.toList

example : isOrganizedDirectorySync ("01-15") = false := by decide

/-- The recursive scan of `_discover_files_async` (async_file_organizer.py
lines 221-236) over the children of a directory: a file is yielded when its
name passes the extension allow-list test `sup` (modelling
`file_path.suffix.lower() in supported_extensions`); a subdirectory is
recursed into only when `_is_organized_directory` rejects its name. -/
def scanList (sup : String → Bool) : List FSEntry → List String
  | [] => []
  | FSEntry.file n :: es =>
    (if sup n then [n] else []) ++ scanList sup es
  | FSEntry.dir n cs :: es =>
    (if isOrganizedDirectory n then [] else scanList sup cs) ++ scanList sup es

/-- Contribution of a single directory entry to the scan. -/
def scanEntry (sup : String → Bool) : FSEntry → List String
  | FSEntry.file n => if sup n then [n] else []
  | FSEntry.dir n cs => if isOrganizedDirectory n then [] else scanList sup cs

/-- `_discover_files_async` applied to a root directory with the given
children (the root itself is scanned unconditionally); sorting of the result
is irrelevant here and omitted. -/
def discoverFiles (sup : String → Bool) (rootChildren : List FSEntry) :
    List String :=
  scanList sup rootChildren

/-- Boolean test that an entry is a directory with an organized
(date-pattern) name. -/
def isOrganizedEntry : FSEntry → Bool
  | FSEntry.file _ => false
  | FSEntry.dir n _ => isOrganizedDirectory n

/-- C8: discovery never recurses into a subdirectory whose name matches one
of the five organized patterns — such a directory contributes no files at
all — and consequently a second run over an already-organized tree (every
root child a directory with an organized name) discovers zero files. -/
theorem c8_discovery_skips_organized (sup : String → Bool) (n : String)
    (cs entries : List FSEntry)
    (h1 : isOrganizedDirectory n = true)
    (h2 : entries.all isOrganizedEntry = true) :
    scanEntry sup (FSEntry.dir n cs) = [] ∧ discoverFiles sup entries = [] := by
  constructor
  · simp [scanEntry, h1]
  · induction entries with
    | nil => simp [discoverFiles, scanList]
    | cons e es ih =>
      rw [List.all_cons, Bool.and_eq_true] at h2
      cases e with
      | file m => simp [isOrganizedEntry] at h2
      | dir m cs2 =>
        have hm : isOrganizedDirectory m = true := by
          simpa [isOrganizedEntry] using h2.1
        have ihs : scanList sup es = [] := ih h2.2
        simp [discoverFiles, scanList, hm, ihs]

/-- Witness for C8: a year-named directory containing a supported file is
skipped, and a tree whose root children are `2024` and `01-15` directories
discovers nothing even with an all-accepting extension filter. -/
theorem c8_discovery_skips_organized_witness :
    scanEntry (fun _ => true)
        (FSEntry.dir ("2024") [FSEntry.file ("a.jpg")]) = [] ∧
      discoverFiles (fun _ => true)
        [FSEntry.dir ("2024") [FSEntry.file ("a.jpg")],
         FSEntry.dir ("01-15") [FSEntry.file ("b.jpg")]] = [] :=
  c8_discovery_skips_organized (fun _ => true) ("2024")
    [FSEntry.file ("a.jpg")]
    [FSEntry.dir ("2024") [FSEntry.file ("a.jpg")],
     FSEntry.dir ("01-15") [FSEntry.file ("b.jpg")]]
    (by decide) (by decide)

/-! ## Batch generator (`_batch_generator`, async_file_organizer.py lines
606-625) -/

/-- The accumulator loop of `_batch_generator`: append the next item to the
current batch, emit the batch once its length reaches `batch_size`, and
after the stream ends emit the non-empty remainder. -/
def batchAux {α : Type} (bsz : Nat) : List α → List α → List (List α)
  | batch, [] => if batch.isEmpty then [] else [batch]
  | batch, x :: xs =>
    if bsz ≤ (batch ++ [x]).length then (batch ++ [x]) :: batchAux bsz [] xs
    else batchAux bsz (batch ++ [x]) xs

/-- `_batch_generator` over a fully materialised task stream. -/
def batchGenerator {α : Type} (bsz : Nat) (items : List α) :
    List (List α) :=
  batchAux bsz [] items

theorem batchAux_join {α : Type} (bsz : Nat) :
    ∀ (l batch : List α), (batchAux bsz batch l).join = batch ++ l := by
  intro l
  induction l with
  | nil =>
    intro batch
    by_cases hbe : batch.isEmpty
    · simp [batchAux, hbe, List.isEmpty_iff.mp hbe]
    · simp [batchAux, hbe]
  | cons x xs ih =>
    intro batch
    simp only [batchAux]
    split
    · simp [ih]
    · simp [ih]

theorem batchAux_mem {α : Type} (bsz : Nat) (hb : 1 ≤ bsz) :
    ∀ (l batch : List α), batch.length < bsz →
      ∀ b ∈ batchAux bsz batch l, b ≠ [] ∧ b.length ≤ bsz := by
  intro l
  induction l with
  | nil =>
    intro batch hlt b hmem
    by_cases hbe : batch.isEmpty
    · simp [batchAux, hbe] at hmem
    · simp only [batchAux] at hmem
      rw [if_neg hbe] at hmem
      simp only [List.mem_singleton] at hmem
      subst hmem
      refine ⟨fun hc => ?_, Nat.le_of_lt hlt⟩
      rw [hc] at hbe
      simp at hbe
  | cons x xs ih =>
    intro batch hlt b hmem
    have hlen : (batch ++ [x]).length = batch.length + 1 := by simp
    simp only [batchAux] at hmem
    split at hmem
    · next hfull =>
      rcases List.mem_cons.mp hmem with hb1 | hb2
      · subst hb1
        refine ⟨by simp, by omega⟩
      · exact ih [] (by simp only [List.length_nil]; omega) b hb2
    · next hnot =>
      exact ih (batch ++ [x]) (by omega) b hmem

theorem batchAux_full {α : Type} (bsz : Nat) (hb : 1 ≤ bsz) :
    ∀ (l batch : List α), batch.length < bsz →
      ∀ pre b post, batchAux bsz batch l = pre ++ b :: post → post ≠ [] →
        b.length = bsz := by
  intro l
  induction l with
  | nil =>
    intro batch hlt pre b post heq hpost
    simp only [batchAux] at heq
    split at heq
    · exact absurd heq.symm (by simp)
    · cases pre with
      | nil =>
        simp only [List.nil_append] at heq
        injection heq with h1 h2
        exact absurd h2.symm hpost
      | cons p pre2 =>
        simp only [List.cons_append] at heq
        injection heq with h1 h2
        exact absurd h2.symm (by simp)
  | cons x xs ih =>
    intro batch hlt pre b post heq hpost
    have hlen : (batch ++ [x]).length = batch.length + 1 := by simp
    simp only [batchAux] at heq
    split at heq
    · next hfull =>
      cases pre with
      | nil =>
        simp only [List.nil_append] at heq
        injection heq with h1 h2
        subst h1
        omega
      | cons p pre2 =>
        simp only [List.cons_append] at heq
        injection heq with h1 h2
        exact ih [] (by simp only [List.length_nil]; omega) pre2 b post h2
          hpost
    · next hnot =>
      exact ih (batch ++ [x]) (by omega) pre b post heq hpost

/-- C9: for every task sequence and every `batch_size ≥ 1` the batch
generator partitions the sequence in order — the concatenation of the
batches is the input, every batch is non-empty with at most `batch_size`
elements, and every batch other than the last has exactly `batch_size`
elements. -/
theorem c9_batching_partitions {α : Type} (bsz : Nat) (l : List α)
    (hb : 1 ≤ bsz) :
    (batchGenerator bsz l).join = l ∧
      (∀ b ∈ batchGenerator bsz l, b ≠ [] ∧ b.length ≤ bsz) ∧
      (∀ pre b post, batchGenerator bsz l = pre ++ b :: post → post ≠ [] →
        b.length = bsz) := by
  refine ⟨?_, ?_, ?_⟩
  · simpa using batchAux_join bsz l []
  · exact fun b hm =>
      batchAux_mem bsz hb l [] (by simp only [List.length_nil]; omega) b hm
  · exact fun pre b post =>
      batchAux_full bsz hb l [] (by simp only [List.length_nil]; omega) pre b
        post

/-- Witness for C9 at `batch_size = 2` over a three-element stream. -/
theorem c9_batching_partitions_witness :
    (batchGenerator 2 [1, 2, 3]).join = [1, 2, 3] :=
  (c9_batching_partitions 2 [1, 2, 3] (by decide)).1

end PhotosSorter
